import Mathlib

/-
Verification of pkg/storage/bucketstorage.go (opencost): the bucket-storage
configuration decoder / provider dispatcher, the cluster-identifier
derivation, and the two path-normalization helpers.

Modelling conventions:
  * Go strings are modelled as Lean `String` (character-wise; the inputs of
    interest are ASCII, where Go's byte indexing and Lean's character
    indexing agree).
  * A Go runtime panic is modelled as `none` in an `Option` result.
  * A Go `(value, error)` pair return is modelled as
    `Option value × Option String` (`none` = Go `nil`).
  * External library calls (yaml.UnmarshalStrict, yaml.Marshal) and the
    external provider constructors (NewS3Storage, NewGCSStorage,
    NewAzureStorage) are taken as function parameters: the code under
    verification only orchestrates them.
  * The injected collaborators `env.GetClusterID()` and
    `namespaces.Get(ctx, "kube-system", opts)` become the parameters
    `clusterID : String` and `lookup : Except String K8sNamespace`.
-/

namespace OpencostBucketStorage

/-- errors.Wrap(err, msg) from github.com/pkg/errors: the resulting message
is the wrapping context, a ": " separator, then the underlying error. -/
def errorsWrap (err msg : String) : String := msg ++ ": " ++ err

/-- strings.ToUpper modelled character-wise with Lean's `Char.toUpper`
(agrees with Go on ASCII input). -/
def stringsToUpper (s : String) : String := String.mk (s.data.map Char.toUpper)

/-- Constant S3 of the source (StorageProvider is a string type). -/
def S3 : String := "S3"

/-- Constant GCS of the source. -/
def GCS : String := "GCS"

/-- Constant AZURE of the source. -/
def AZURE : String := "AZURE"

/-- The only piece of the Kubernetes namespace object the code reads: its
UID string. -/
structure K8sNamespace where
  UID : String

/-- Go string slicing s[:n]: the first n characters when n ≤ len(s);
`none` models the runtime panic "slice bounds out of range" that Go raises
when n > len(s). -/
def goTake (s : String) (n : Nat) : Option String :=
  if n ≤ s.data.length then some (String.mk (s.data.take n)) else none

/-- getClusterIdentifier of the source. `clusterID` is the result of
env.GetClusterID(); `lookup` is the result of the kube-system namespace
lookup (`.error` = the lookup returned a non-nil error, upon which the code
logs and returns ""). On a successful lookup the code evaluates
string(ns.UID)[:5] or [:10], which panics (`none`) for short UIDs. -/
def getClusterIdentifier (clusterID : String)
    (lookup : Except String K8sNamespace) : Option String :=
  match lookup with
  | .error _ => some ""
  | .ok ns =>
      if clusterID ≠ "" then
        match goTake ns.UID 5 with
        | none => none
        | some p => some (p ++ "-" ++ clusterID)
      else
        goTake ns.UID 10

/-- StorageConfig of the source: the envelope with the provider tag
(field `Type`, here `typ`) and the opaque nested payload (field `Config`,
held at some type V since the source holds it as interface\x7b\x7d). -/
structure StorageConfig (V : Type) where
  typ : String
  Config : V

/-- Opaque storage handle; the code under verification never inspects it. -/
structure Storage where
  handle : Nat

/-- The tail of NewBucketStorage after the switch: Go's
`if err != nil { return nil, errors.Wrap(err, fmt.Sprintf("create %s client", t)) }`
followed by `return storage, nil`, applied to the (storage, err) pair the
selected constructor returned. -/
def finishConstruct (typ : String) (r : Option Storage × Option String) :
    Option Storage × Option String :=
  match r.2 with
  | some err => (none, some (errorsWrap err ("create " ++ typ ++ " client")))
  | none => (r.1, none)

/-- NewBucketStorage of the source. The yaml library calls and the three
provider constructors are parameters; `config` is the raw byte input.
The outer `Option` is `none` exactly when the computation panics (which
can only happen inside getClusterIdentifier); otherwise it carries the Go
`(Storage, error)` return pair. -/
def NewBucketStorage {V : Type}
    (unmarshalStrict : List Nat → Except String (StorageConfig V))
    (marshal : V → Except String (List Nat))
    (clusterID : String)
    (lookup : Except String K8sNamespace)
    (newS3Storage newGCSStorage newAzureStorage :
      List Nat → Option Storage × Option String)
    (config : List Nat) : Option (Option Storage × Option String) :=
  match unmarshalStrict config with
  | .error err => some (none, some (errorsWrap err "parsing config YAML file"))
  | .ok storageConfig =>
      match marshal storageConfig.Config with
      | .error err =>
          some (none, some (errorsWrap err "marshal content of storage configuration"))
      | .ok payload =>
          match getClusterIdentifier clusterID lookup with
          | none => none
          | some _cid =>
              if stringsToUpper storageConfig.typ = S3 then
                some (finishConstruct storageConfig.typ (newS3Storage payload))
              else if stringsToUpper storageConfig.typ = GCS then
                some (finishConstruct storageConfig.typ (newGCSStorage payload))
              else if stringsToUpper storageConfig.typ = AZURE then
                some (finishConstruct storageConfig.typ (newAzureStorage payload))
              else
                some (none, some ("storage with type " ++ storageConfig.typ ++
                  " is not supported"))

/-- trimLeading of the source, on the character list of the file name:
an empty string is returned unchanged; if file[0] is '/', file[1:] is
returned; otherwise the string is unchanged. -/
def trimLeading (file : List Char) : List Char :=
  match file with
  | [] => file
  | c :: rest => if c = '/' then rest else file

/-- strings.LastIndex(file, "/") on the character list: the index of the
last '/' in the string, or -1 when there is none. -/
def stringsLastIndex : List Char → Int
  | [] => -1
  | c :: rest =>
      let r := stringsLastIndex rest
      if 0 ≤ r then r + 1
      else if c = '/' then 0 else -1

/-- trimName of the source: strings.LastIndex for '/', return the input
when it is negative, otherwise the suffix file[slashIndex+1:]. -/
def trimName (file : List Char) : List Char :=
  let slashIndex := stringsLastIndex file
  if slashIndex < 0 then file
  else file.drop (slashIndex.toNat + 1)

/-- stringsLastIndex is nonnegative exactly when the string contains '/'. -/
theorem stringsLastIndex_nonneg_iff (s : List Char) :
    0 ≤ stringsLastIndex s ↔ '/' ∈ s := by
  induction s with
  | nil => simp [stringsLastIndex]
  | cons c rest ih =>
      simp only [stringsLastIndex, List.mem_cons]
      by_cases h : 0 ≤ stringsLastIndex rest
      · rw [if_pos h]
        constructor
        · intro _; exact Or.inr (ih.mp h)
        · intro _; omega
      · rw [if_neg h]
        by_cases hc : c = '/'
        · simp [hc]
        · rw [if_neg hc]
          constructor
          · intro h0; omega
          · rintro (h1 | h2)
            · exact absurd h1.symm hc
            · exact absurd (ih.mpr h2) h


/-- When stringsLastIndex s is nonnegative, s splits as a prefix of that
length, the '/' at that index, and a slash-free suffix (so the index really
is the last occurrence of '/'). -/
theorem stringsLastIndex_spec (s : List Char) (h : 0 ≤ stringsLastIndex s) :
    ∃ p : List Char, p.length = (stringsLastIndex s).toNat ∧
      '/' ∉ s.drop ((stringsLastIndex s).toNat + 1) ∧
      s = p ++ '/' :: s.drop ((stringsLastIndex s).toNat + 1) := by
  induction s with
  | nil => simp [stringsLastIndex] at h
  | cons c rest ih =>
      by_cases hr : 0 ≤ stringsLastIndex rest
      · have hval : stringsLastIndex (c :: rest) = stringsLastIndex rest + 1 := by
          simp [stringsLastIndex, hr]
        obtain ⟨p, hplen, hnos, hsplit⟩ := ih hr
        have htn : (stringsLastIndex rest + 1).toNat = (stringsLastIndex rest).toNat + 1 := by
          omega
        refine ⟨c :: p, ?_, ?_, ?_⟩
        · rw [hval, htn]; simp [hplen]
        · rw [hval, htn, List.drop_succ_cons]; exact hnos
        · rw [hval, htn, List.drop_succ_cons]
          exact congrArg (c :: ·) hsplit
      · by_cases hc : c = '/'
        · have hval : stringsLastIndex (c :: rest) = 0 := by
            simp [stringsLastIndex, hr, hc]
          have hnos : '/' ∉ rest := fun hm =>
            hr ((stringsLastIndex_nonneg_iff rest).mpr hm)
          refine ⟨[], ?_, ?_, ?_⟩
          · rw [hval]; rfl
          · rw [hval]; simpa using hnos
          · rw [hval]; simp [hc]
        · have hval : stringsLastIndex (c :: rest) = -1 := by
            simp [stringsLastIndex, hr, hc]
          rw [hval] at h; omega

/-- trimName leaves a string with no '/' unchanged. -/
theorem trimName_of_not_mem (s : List Char) (h : '/' ∉ s) : trimName s = s := by
  have hlt : stringsLastIndex s < 0 := by
    have hn : ¬ 0 ≤ stringsLastIndex s := fun h0 =>
      h ((stringsLastIndex_nonneg_iff s).mp h0)
    omega
  simp [trimName, hlt]

/-- When s contains '/', trimName s is the suffix after the last '/': s
splits as a prefix, that '/', and trimName s, and trimName s is slash-free. -/
theorem trimName_split (s : List Char) (h : '/' ∈ s) :
    ∃ p, s = p ++ '/' :: trimName s ∧ '/' ∉ trimName s := by
  have h0 : 0 ≤ stringsLastIndex s := (stringsLastIndex_nonneg_iff s).mpr h
  have hlt : ¬ stringsLastIndex s < 0 := by omega
  obtain ⟨p, _, hnos, hsplit⟩ := stringsLastIndex_spec s h0
  have htn : trimName s = s.drop ((stringsLastIndex s).toNat + 1) := by
    simp [trimName, hlt]
  exact ⟨p, by rw [htn]; exact hsplit, by rw [htn]; exact hnos⟩

/-- The result of trimName never contains '/'. -/
theorem not_mem_trimName (s : List Char) : '/' ∉ trimName s := by
  by_cases h : '/' ∈ s
  · obtain ⟨p, _, hn⟩ := trimName_split s h
    exact hn
  · rw [trimName_of_not_mem s h]; exact h

/-- C2 counterexample: trimLeading is not idempotent as claimed: it removes
only one leading '/', so on "//a" one application gives "/a" and a second
application gives "a". -/
theorem trimLeading_not_idempotent :
    trimLeading (trimLeading "//a".data) ≠ trimLeading "//a".data := by decide

/-- C2 amended: trimLeading is idempotent on every string that does not
start with two '/' characters (a string starting with "//" loses one more
leading '/' on the second application). -/
theorem trimLeading_idem_unless_double_slash (s : List Char)
    (h : s.take 2 ≠ ['/', '/']) :
    trimLeading (trimLeading s) = trimLeading s := by
  match s with
  | [] => rfl
  | [c] =>
      by_cases hc : c = '/'
      · subst hc; decide
      · simp [trimLeading, hc]
  | c :: d :: rest =>
      by_cases hc : c = '/'
      · subst hc
        by_cases hd : d = '/'
        · exact absurd (by simp [hd]) h
        · simp [trimLeading, hd]
      · simp [trimLeading, hc]

/-- Witness for the amended C2 at the concrete input "/a/b". -/
theorem trimLeading_idem_unless_double_slash_witness :
    trimLeading (trimLeading "/a/b".data) = trimLeading "/a/b".data :=
  trimLeading_idem_unless_double_slash "/a/b".data (by decide)

/-- C9: trimName returns the substring after the last '/': for a string
containing '/', the input splits as a prefix, a '/', and the (slash-free)
result, so the result is exactly the suffix after the last '/'; for a
string without '/', the input is returned unchanged; and the spec's
examples trimName "a/b/c" = "c", trimName "c" = "c" hold. -/
theorem trimName_basename :
    (∀ s : List Char,
      ('/' ∈ s → ∃ p, s = p ++ '/' :: trimName s ∧ '/' ∉ trimName s) ∧
      ('/' ∉ s → trimName s = s)) ∧
    trimName "a/b/c".data = "c".data ∧ trimName "c".data = "c".data := by
  refine ⟨fun s => ⟨trimName_split s, trimName_of_not_mem s⟩, by decide, by decide⟩

/-- Witness for C9 at the concrete input "a/b/c". -/
theorem trimName_basename_witness :
    ∃ p, "a/b/c".data = p ++ '/' :: trimName "a/b/c".data ∧
      '/' ∉ trimName "a/b/c".data :=
  (trimName_basename.1 "a/b/c".data).1 (by decide)

/-- C10: trimName is idempotent on every input, since its result never
contains the '/' separator. -/
theorem trimName_idempotent (s : List Char) :
    trimName (trimName s) = trimName s :=
  trimName_of_not_mem (trimName s) (not_mem_trimName s)

/-- C1, evaluating the code at the failing input: when the kube-system
namespace lookup succeeds with a UID shorter than the requested slice
length (here "ab"), getClusterIdentifier runs string(ns.UID)[:5] (external
cluster id non-empty) or [:10] (empty) and panics with a slice-bounds
error (modelled as `none`); it does not truncate as the claim demands. -/
theorem getClusterIdentifier_short_uid_panics :
    getClusterIdentifier "prod" (.ok ⟨"ab"⟩) = none ∧
    getClusterIdentifier "" (.ok ⟨"ab"⟩) = none := by decide

/-- C4: with a successful lookup, if the external cluster id is non-empty
(and the UID holds at least 5 characters so its first 5 characters exist)
the result is the first 5 characters of the UID, "-", and the external id;
if the external id is empty (UID of at least 10 characters) the result is
the first 10 characters of the UID. In particular the spec's examples hold:
external id "prod" with UID "abcdefghijklmnop" gives "abcde-prod", and an
empty external id with the same UID gives "abcdefghij". -/
theorem getClusterIdentifier_derivation :
    (∀ clusterID uid : String, clusterID ≠ "" → 5 ≤ uid.data.length →
      getClusterIdentifier clusterID (.ok ⟨uid⟩) =
        some (String.mk (uid.data.take 5) ++ "-" ++ clusterID)) ∧
    (∀ uid : String, 10 ≤ uid.data.length →
      getClusterIdentifier "" (.ok ⟨uid⟩) = some (String.mk (uid.data.take 10))) ∧
    getClusterIdentifier "prod" (.ok ⟨"abcdefghijklmnop"⟩) = some "abcde-prod" ∧
    getClusterIdentifier "" (.ok ⟨"abcdefghijklmnop"⟩) = some "abcdefghij" := by
  refine ⟨?_, ?_, by decide, by decide⟩
  · intro clusterID uid hne h5
    have h5' : 5 ≤ uid.length := h5
    simp [getClusterIdentifier, goTake, hne, h5, h5']
  · intro uid h10
    have h10' : 10 ≤ uid.length := h10
    simp [getClusterIdentifier, goTake, h10, h10']

/-- Witness for C4 at a concrete non-empty external id and 10-character UID. -/
theorem getClusterIdentifier_derivation_witness :
    getClusterIdentifier "prod" (.ok ⟨"0123456789"⟩) =
      some (String.mk ("0123456789".data.take 5) ++ "-" ++ "prod") :=
  getClusterIdentifier_derivation.1 "prod" "0123456789" (by decide) (by decide)

/-- C5: a failing kube-system lookup never fails the caller: for every
error result of the lookup, getClusterIdentifier returns the empty string
(no error, no panic), and NewBucketStorage run with such a lookup always
completes with a Go return pair (the outer Option, which models a panic,
is always `some`), whatever the other inputs do. -/
theorem getClusterIdentifier_never_fails_caller :
    ∀ {V : Type} (u : List Nat → Except String (StorageConfig V))
      (m : V → Except String (List Nat)) (clusterID err : String)
      (f g h : List Nat → Option Storage × Option String) (cfg : List Nat),
      getClusterIdentifier clusterID (.error err) = some "" ∧
      (NewBucketStorage u m clusterID (.error err) f g h cfg).isSome = true := by
  intro V u m clusterID err f g h cfg
  refine ⟨rfl, ?_⟩
  cases hu : u cfg with
  | error e => simp [NewBucketStorage, hu]
  | ok sc =>
      cases hm : m sc.Config with
      | error e => simp [NewBucketStorage, hu, hm]
      | ok payload =>
          simp only [NewBucketStorage, hu, hm, getClusterIdentifier]
          split
          · rfl
          · split
            · rfl
            · split
              · rfl
              · rfl

/-- C3 counterexample: the error contexts in the code are
"parsing config YAML file" and "marshal content of storage configuration",
not the claimed "parsing config document" and
"marshal nested storage configuration": concrete runs in which the yaml
decode (respectively the re-encode) fails with "boom" produce the former
messages, which differ from the ones the claim names. -/
theorem NewBucketStorage_decode_contexts_differ :
    NewBucketStorage (fun _ => Except.error "boom")
      (fun (_ : Nat) => Except.ok []) "" (Except.error "e")
      (fun _ => (none, none)) (fun _ => (none, none)) (fun _ => (none, none))
      [] = some (none, some (errorsWrap "boom" "parsing config YAML file")) ∧
    errorsWrap "boom" "parsing config YAML file" ≠
      errorsWrap "boom" "parsing config document" ∧
    NewBucketStorage (fun (_ : List Nat) => Except.ok (⟨"s3", 0⟩ : StorageConfig Nat))
      (fun _ => Except.error "boom") "" (Except.error "e")
      (fun _ => (none, none)) (fun _ => (none, none)) (fun _ => (none, none))
      [] = some (none, some (errorsWrap "boom" "marshal content of storage configuration")) ∧
    errorsWrap "boom" "marshal content of storage configuration" ≠
      errorsWrap "boom" "marshal nested storage configuration" := by
  refine ⟨rfl, by decide, rfl, by decide⟩

/-- C3 amended: a failed envelope decode yields a nil Storage and the
error wrapped with context "parsing config YAML file", and a failed
re-encode of the nested payload yields a nil Storage and the error wrapped
with context "marshal content of storage configuration"; in both cases the
result does not depend on the provider constructors, so none is called. -/
theorem NewBucketStorage_decode_errors :
    ∀ {V : Type} (u : List Nat → Except String (StorageConfig V))
      (m : V → Except String (List Nat)) (clusterID : String)
      (lk : Except String K8sNamespace)
      (f g h : List Nat → Option Storage × Option String)
      (cfg : List Nat) (err : String),
      (u cfg = .error err →
        NewBucketStorage u m clusterID lk f g h cfg =
          some (none, some (errorsWrap err "parsing config YAML file"))) ∧
      (∀ sc, u cfg = .ok sc → m sc.Config = .error err →
        NewBucketStorage u m clusterID lk f g h cfg =
          some (none, some (errorsWrap err "marshal content of storage configuration"))) := by
  intro V u m clusterID lk f g h cfg err
  constructor
  · intro hu
    simp [NewBucketStorage, hu]
  · intro sc hu hm
    simp [NewBucketStorage, hu, hm]

/-- Witness for the amended C3: a concrete failing decode. -/
theorem NewBucketStorage_decode_errors_witness :
    NewBucketStorage (fun _ => Except.error "bad doc")
      (fun (_ : Nat) => Except.ok []) "" (Except.error "e")
      (fun _ => (none, none)) (fun _ => (none, none)) (fun _ => (none, none))
      [] = some (none, some (errorsWrap "bad doc" "parsing config YAML file")) :=
  (NewBucketStorage_decode_errors _ _ _ _ _ _ _ _ _).1 rfl

/-- C6: provider dispatch is case-insensitive: once the envelope decodes,
the payload re-encodes and the cluster-identifier step completes, a tag
whose uppercase form is "S3" (resp. "GCS", "AZURE") makes NewBucketStorage
return the outcome of NewS3Storage (resp. NewGCSStorage, NewAzureStorage)
on the re-encoded payload, whatever the tag's letter case. -/
theorem NewBucketStorage_dispatch_case_insensitive :
    ∀ {V : Type} (u : List Nat → Except String (StorageConfig V))
      (m : V → Except String (List Nat)) (clusterID : String)
      (lk : Except String K8sNamespace)
      (f g h : List Nat → Option Storage × Option String)
      (cfg payload : List Nat) (sc : StorageConfig V) (c : String),
      u cfg = .ok sc → m sc.Config = .ok payload →
      getClusterIdentifier clusterID lk = some c →
      (stringsToUpper sc.typ = S3 →
        NewBucketStorage u m clusterID lk f g h cfg =
          some (finishConstruct sc.typ (f payload))) ∧
      (stringsToUpper sc.typ = GCS →
        NewBucketStorage u m clusterID lk f g h cfg =
          some (finishConstruct sc.typ (g payload))) ∧
      (stringsToUpper sc.typ = AZURE →
        NewBucketStorage u m clusterID lk f g h cfg =
          some (finishConstruct sc.typ (h payload))) := by
  intro V u m clusterID lk f g h cfg payload sc c hu hm hc
  refine ⟨?_, ?_, ?_⟩ <;> intro ht <;>
    simp [NewBucketStorage, hu, hm, hc, ht, S3, GCS, AZURE]

/-- Witness for C6: the lowercase tag "s3" selects the S3 constructor. -/
theorem NewBucketStorage_dispatch_case_insensitive_witness :
    NewBucketStorage (fun (_ : List Nat) => Except.ok (⟨"s3", 0⟩ : StorageConfig Nat))
      (fun _ => Except.ok [7]) "" (Except.error "e")
      (fun _ => (some ⟨1⟩, none)) (fun _ => (none, some "g")) (fun _ => (none, some "h"))
      [] = some (finishConstruct "s3" (some ⟨1⟩, none)) :=
  (NewBucketStorage_dispatch_case_insensitive
      (fun (_ : List Nat) => Except.ok (⟨"s3", 0⟩ : StorageConfig Nat))
      (fun _ => Except.ok [7]) "" (Except.error "e")
      (fun _ => (some ⟨1⟩, none)) (fun _ => (none, some "g")) (fun _ => (none, some "h"))
      [] [7] ⟨"s3", 0⟩ "" rfl rfl rfl).1 (by decide)

/-- C7: a successfully decoded envelope whose tag is, case-insensitively,
none of S3, GCS, AZURE makes NewBucketStorage return a nil Storage and the
error "storage with type <tag> is not supported", naming the rejected tag;
the result does not depend on the provider constructors, so none is
called, and there is no fallback provider. -/
theorem NewBucketStorage_unsupported_provider :
    ∀ {V : Type} (u : List Nat → Except String (StorageConfig V))
      (m : V → Except String (List Nat)) (clusterID : String)
      (lk : Except String K8sNamespace)
      (f g h : List Nat → Option Storage × Option String)
      (cfg payload : List Nat) (sc : StorageConfig V) (c : String),
      u cfg = .ok sc → m sc.Config = .ok payload →
      getClusterIdentifier clusterID lk = some c →
      stringsToUpper sc.typ ≠ S3 → stringsToUpper sc.typ ≠ GCS →
      stringsToUpper sc.typ ≠ AZURE →
      NewBucketStorage u m clusterID lk f g h cfg =
        some (none, some ("storage with type " ++ sc.typ ++ " is not supported")) := by
  intro V u m clusterID lk f g h cfg payload sc c hu hm hc h1 h2 h3
  simp [NewBucketStorage, hu, hm, hc, h1, h2, h3]

/-- Witness for C7: the tag "unknown" is rejected by name. -/
theorem NewBucketStorage_unsupported_provider_witness :
    NewBucketStorage (fun (_ : List Nat) => Except.ok (⟨"unknown", 0⟩ : StorageConfig Nat))
      (fun _ => Except.ok []) "" (Except.error "e")
      (fun _ => (some ⟨1⟩, none)) (fun _ => (some ⟨2⟩, none)) (fun _ => (some ⟨3⟩, none))
      [] = some (none, some ("storage with type " ++ "unknown" ++ " is not supported")) :=
  NewBucketStorage_unsupported_provider
    (fun (_ : List Nat) => Except.ok (⟨"unknown", 0⟩ : StorageConfig Nat))
    (fun _ => Except.ok []) "" (Except.error "e")
    (fun _ => (some ⟨1⟩, none)) (fun _ => (some ⟨2⟩, none)) (fun _ => (some ⟨3⟩, none))
    [] [] ⟨"unknown", 0⟩ "" rfl rfl rfl (by decide) (by decide) (by decide)

/-- finishConstruct never yields a handle together with an error. -/
theorem finishConstruct_not_both (typ : String)
    (r : Option Storage × Option String) (s : Storage) (e : String) :
    finishConstruct typ r ≠ (some s, some e) := by
  obtain ⟨a, b⟩ := r
  cases b <;> simp [finishConstruct]

/-- When the constructor pair is not (nil, nil), finishConstruct yields
either a handle with no error or no handle with an error. -/
theorem finishConstruct_wf (typ : String) (r : Option Storage × Option String)
    (hr : r ≠ (none, none)) :
    (∃ s, finishConstruct typ r = (some s, none)) ∨
    (∃ e, finishConstruct typ r = (none, some e)) := by
  obtain ⟨a, b⟩ := r
  cases b with
  | some e =>
      right
      exact ⟨errorsWrap e ("create " ++ typ ++ " client"), by simp [finishConstruct]⟩
  | none =>
      cases a with
      | some s => left; exact ⟨s, by simp [finishConstruct]⟩
      | none => exact absurd rfl hr

/-- C8: NewBucketStorage never returns a non-nil Storage together with a
non-nil error, whatever the collaborators do; and when each provider
constructor honours the Go convention of returning a handle or an error
(never a (nil, nil) pair), every completed run returns either a handle
with a nil error or a nil handle with an error. -/
theorem NewBucketStorage_no_partial_result :
    ∀ {V : Type} (u : List Nat → Except String (StorageConfig V))
      (m : V → Except String (List Nat)) (clusterID : String)
      (lk : Except String K8sNamespace)
      (f g h : List Nat → Option Storage × Option String) (cfg : List Nat),
      (∀ s e, NewBucketStorage u m clusterID lk f g h cfg ≠ some (some s, some e)) ∧
      ((∀ b, f b ≠ (none, none)) → (∀ b, g b ≠ (none, none)) →
        (∀ b, h b ≠ (none, none)) →
        ∀ r, NewBucketStorage u m clusterID lk f g h cfg = some r →
          (∃ s, r = (some s, none)) ∨ (∃ e, r = (none, some e))) := by
  intro V u m clusterID lk f g h cfg
  constructor
  · intro s e heq
    cases hu : u cfg with
    | error e1 => rw [NewBucketStorage, hu] at heq; simp at heq
    | ok sc =>
        cases hm : m sc.Config with
        | error e2 =>
            rw [NewBucketStorage, hu] at heq; simp [hm] at heq
        | ok payload =>
            rw [NewBucketStorage, hu] at heq
            simp only [hm] at heq
            cases hc : getClusterIdentifier clusterID lk with
            | none => simp [hc] at heq
            | some c =>
                simp only [hc] at heq
                split at heq
                · exact finishConstruct_not_both _ _ s e (Option.some.inj heq)
                · split at heq
                  · exact finishConstruct_not_both _ _ s e (Option.some.inj heq)
                  · split at heq
                    · exact finishConstruct_not_both _ _ s e (Option.some.inj heq)
                    · simp at heq
  · intro hf hg hh r heq
    cases hu : u cfg with
    | error e1 =>
        rw [NewBucketStorage, hu] at heq; simp at heq
        exact Or.inr ⟨_, heq.symm⟩
    | ok sc =>
        cases hm : m sc.Config with
        | error e2 =>
            rw [NewBucketStorage, hu] at heq; simp [hm] at heq
            exact Or.inr ⟨_, heq.symm⟩
        | ok payload =>
            rw [NewBucketStorage, hu] at heq
            simp only [hm] at heq
            cases hc : getClusterIdentifier clusterID lk with
            | none => simp [hc] at heq
            | some c =>
                simp only [hc] at heq
                split at heq
                · rw [← Option.some.inj heq]; exact finishConstruct_wf _ _ (hf payload)
                · split at heq
                  · rw [← Option.some.inj heq]; exact finishConstruct_wf _ _ (hg payload)
                  · split at heq
                    · rw [← Option.some.inj heq]; exact finishConstruct_wf _ _ (hh payload)
                    · simp at heq
                      exact Or.inr ⟨_, heq.symm⟩

/-- Witness for C8 on a concrete successful S3 run. -/
theorem NewBucketStorage_no_partial_result_witness :
    (∃ s, ((some (Storage.mk 1) : Option Storage), (none : Option String)) = (some s, none)) ∨
    (∃ e, ((some (Storage.mk 1) : Option Storage), (none : Option String)) = (none, some e)) :=
  (NewBucketStorage_no_partial_result
      (fun (_ : List Nat) => Except.ok (⟨"S3", 0⟩ : StorageConfig Nat))
      (fun _ => Except.ok []) "" (Except.error "e")
      (fun _ => (some ⟨1⟩, none)) (fun _ => (some ⟨2⟩, none))
      (fun _ => (some ⟨3⟩, none)) []).2
    (fun b => by simp) (fun b => by simp) (fun b => by simp)
    (some ⟨1⟩, none) rfl

end OpencostBucketStorage
